import Mathlib

/-!
Shallow embedding of the post/response storage and pagination core of the
echo-app server (TypeScript sources under `src/server/db/posts.ts`,
`src/server/db/schema.ts`, and the GraphQL resolver projection helpers).

Machine integers of the source are modelled as `Nat`/`Int`; timestamps are
milliseconds since the Unix epoch (`Nat`, matching the precision of a
JavaScript `Date`); fallible operations return `Except String`.  JavaScript
primitives that the source relies on (`String.prototype.split`, `parseInt`,
`new Date(string)`, `Date.prototype.toISOString`, `||` defaulting and
truthiness) are modelled explicitly below.
-/

namespace Echo

/-! ## JavaScript primitive models -/

/-- Model of JavaScript truthiness for an optional number: `undefined` and
`0` are falsy, every other number is truthy. -/
def jsTruthyNat : Option Nat → Bool
  | none => false
  | some n => n != 0

/-- Model of JavaScript truthiness for an optional string: `undefined` and
the empty string are falsy. -/
def jsTruthyStr : Option String → Bool
  | none => false
  | some s => s != ""

/-- Model of the JavaScript expression `x || null` applied to a nullable
number field: `0` (falsy) collapses to `null`. -/
def jsOrNullNat : Option Nat → Option Nat
  | some 0 => none
  | v => v

/-- Model of the JavaScript expression `x || null` applied to a nullable
string field: the empty string (falsy) collapses to `null`. -/
def jsOrNullStr : Option String → Option String
  | some "" => none
  | v => v

/-- Model of the JavaScript expression `x || d` for an optional string with
a string default: `undefined` and `""` fall back to the default. -/
def jsOrElseStr (x : Option String) (d : String) : String :=
  match x with
  | none => d
  | some s => if s = "" then d else s

/-- Value of the maximal leading decimal-digit run of a character list, or
`none` when the list does not start with a digit. -/
def digitRunVal : List Char → Option Nat
  | [] => none
  | c :: cs =>
    if c.isDigit then
      some ((c :: cs).takeWhile Char.isDigit |>.foldl
        (fun acc d => acc * 10 + (d.toNat - 48)) 0)
    else none

/-- Model of JavaScript `parseInt(s, 10)`: skip leading whitespace, read an
optional sign, then the maximal run of decimal digits; `NaN` (modelled as
`none`) when no digit follows. -/
def jsParseInt (s : String) : Option Int :=
  match s.toList.dropWhile Char.isWhitespace with
  | '-' :: rest => (digitRunVal rest).map (fun n => -(n : Int))
  | '+' :: rest => (digitRunVal rest).map (fun n => (n : Int))
  | cs => (digitRunVal cs).map (fun n => (n : Int))

/-- Split a character list at every occurrence of `sep`. -/
def splitCharAux (sep : Char) : List Char → List Char → List String
  | [], acc => [String.mk acc.reverse]
  | c :: cs, acc =>
    if c = sep then String.mk acc.reverse :: splitCharAux sep cs []
    else splitCharAux sep cs (c :: acc)

/-- Model of JavaScript `s.split(sep)` for a one-character separator: the
list of (possibly empty) fragments between occurrences of `sep`;
`"".split(sep)` is `[""]`. -/
def jsSplit (s : String) (sep : Char) : List String :=
  splitCharAux sep s.toList []

/-- Gregorian leap-year test. -/
def isLeapYear (y : Nat) : Bool :=
  y % 4 == 0 && (y % 100 != 0 || y % 400 == 0)

/-- Number of days in a Gregorian calendar year. -/
def daysInYear (y : Nat) : Nat :=
  if isLeapYear y then 366 else 365

/-- Lengths of the twelve months of year `y`. -/
def monthLengths (y : Nat) : List Nat :=
  [31, if isLeapYear y then 29 else 28, 31, 30, 31, 30, 31, 31, 30, 31, 30, 31]

/-- Number of days in month `m` (1-12) of year `y`. -/
def daysInMonth (y m : Nat) : Nat :=
  ((monthLengths y).drop (m - 1)).headD 31

/-- Number of days in the months strictly before month `m` (1-12) of year
`y`. -/
def daysBeforeMonth (y m : Nat) : Nat :=
  ((monthLengths y).take (m - 1)).foldl (· + ·) 0

/-- Number of days from year 0 (proleptic Gregorian) up to the start of
year `y`. -/
def daysBeforeYear (y : Nat) : Nat :=
  365 * y + (y + 3) / 4 - (y + 99) / 100 + (y + 399) / 400

/-- Days from the Unix epoch (1970-01-01) to the start of year `y ≥ 1970`. -/
def epochDaysBeforeYear (y : Nat) : Nat :=
  daysBeforeYear y - daysBeforeYear 1970

/-- Convert a count of days since the Unix epoch to `(year, dayOfYear)` by
stepping through years; the fuel argument makes the recursion structural
and is always sufficient at `days + 1`. -/
def civilYearAux : Nat → Nat → Nat → Nat × Nat
  | 0, y, d => (y, d)
  | fuel + 1, y, d =>
    if daysInYear y ≤ d then civilYearAux fuel (y + 1) (d - daysInYear y)
    else (y, d)

/-- `(year, dayOfYear)` for a day count since the Unix epoch. -/
def civilYear (days : Nat) : Nat × Nat :=
  civilYearAux (days + 1) 1970 days

/-- Walk a list of month lengths, turning a zero-based day of year into a
`(month, dayOfMonth0)` pair. -/
def monthFromDayAux : List Nat → Nat → Nat → Nat × Nat
  | [], m, d => (m, d)
  | len :: rest, m, d =>
    if d < len then (m, d) else monthFromDayAux rest (m + 1) (d - len)

/-- `(month, dayOfMonth0)` for a zero-based day of year `doy` in year `y`. -/
def civilMonth (y doy : Nat) : Nat × Nat :=
  monthFromDayAux (monthLengths y) 1 doy

/-- Left-pad the decimal representation of `n` with zeros to width `w`. -/
def padZeros (w n : Nat) : String :=
  let s := toString n
  String.mk (List.replicate (w - s.length) '0') ++ s

/-- Model of JavaScript `Date.prototype.toISOString` on a timestamp in
milliseconds since the Unix epoch: `"YYYY-MM-DDTHH:MM:SS.mmmZ"`. -/
def toISOString (ms : Nat) : String :=
  let days := ms / 86400000
  let msOfDay := ms % 86400000
  let yd := civilYear days
  let md := civilMonth yd.1 yd.2
  padZeros 4 yd.1 ++ "-" ++ padZeros 2 md.1 ++ "-" ++ padZeros 2 (md.2 + 1) ++
    "T" ++ padZeros 2 (msOfDay / 3600000) ++ ":" ++
    padZeros 2 (msOfDay % 3600000 / 60000) ++ ":" ++
    padZeros 2 (msOfDay % 60000 / 1000) ++ "." ++ padZeros 3 (ms % 1000) ++ "Z"

/-- Check that a character list consists of exactly `n` decimal digits, and
return their value. -/
def fixedDigits (n : Nat) (cs : List Char) : Option Nat :=
  if cs.length = n && cs.all Char.isDigit then
    some (cs.foldl (fun acc d => acc * 10 + (d.toNat - 48)) 0)
  else none

/-- Model of JavaScript `new Date(s).getTime()` restricted to strings that
contain no colon, which are the only strings this development ever passes
to it: `getPosts` applies `new Date` exclusively to the text before the
first `:` of a cursor.  Per the ECMAScript Date Time String Format, the
colon-free members of the grammar are the date-only forms `YYYY`,
`YYYY-MM` and `YYYY-MM-DD` (interpreted as UTC); every date-time form
contains `HH:mm`.  All other inputs give an Invalid Date, modelled as
`none`.  Years below 1970 are outside the model (the store never holds
them and no claim exercises them). -/
def jsDateParse (s : String) : Option Int :=
  let parseYMD : Option (Nat × Nat × Nat) :=
    match (jsSplit s '-').map String.toList with
    | [y] => (fixedDigits 4 y).map (fun yv => (yv, 1, 1))
    | [y, m] => do
      let yv ← fixedDigits 4 y
      let mv ← fixedDigits 2 m
      if 1 ≤ mv && mv ≤ 12 then pure (yv, mv, 1) else none
    | [y, m, d] => do
      let yv ← fixedDigits 4 y
      let mv ← fixedDigits 2 m
      let dv ← fixedDigits 2 d
      if 1 ≤ mv && mv ≤ 12 && 1 ≤ dv && dv ≤ daysInMonth yv mv then
        pure (yv, mv, dv)
      else none
    | _ => none
  match parseYMD with
  | some (y, m, d) =>
    if 1970 ≤ y then
      some (((epochDaysBeforeYear y + daysBeforeMonth y m + (d - 1)) *
        86400000 : Nat))
    else none
  | none => none

/-! ## Data model (`src/server/db/schema.ts`) -/

/-- The `post_type` enum. -/
inductive PostType where
  | POST
  | RESPONSE
deriving DecidableEq, Repr

/-- The `post_status` enum. -/
inductive PostStatus where
  | AWAITING_PROCESSING
  | PROCESSED
  | DELETED
deriving DecidableEq, Repr

/-- A row of the `posts` table. -/
structure Post where
  id : Nat
  userId : Nat
  type : PostType
  parentId : Option Nat
  audioUrl : String
  audioKey : String
  duration : Nat
  tags : List String
  waveformUrl : Option String
  responseCount : Int
  bookmarkCount : Int
  city : String
  active : Bool
  status : PostStatus
  createdAt : Nat
  updatedAt : Nat
deriving DecidableEq, Repr

/-- A row of the `user_profiles` table (the fields the post queries read). -/
structure UserProfile where
  id : Nat
  userId : Nat
  username : String
  city : String
deriving DecidableEq, Repr

/-- A row of the `bookmarks` table. -/
structure Bookmark where
  id : Nat
  userId : Nat
  postId : Nat
  createdAt : Nat
deriving DecidableEq, Repr

/-- The payload of a `RESPONSE` notification (`notifications.data`). -/
structure NotificationData where
  type : String
  postId : Nat
  responseId : Nat
  responderId : Nat
deriving DecidableEq, Repr

/-- A row of the `notifications` table. -/
structure NotificationRow where
  userId : Nat
  data : NotificationData
deriving DecidableEq, Repr

/-- The durable store: the tables the post/response core touches, plus the
serial-id counters of `posts` and `bookmarks`. -/
structure Store where
  posts : List Post
  profiles : List UserProfile
  bookmarks : List Bookmark
  notificationRows : List NotificationRow
  nextPostId : Nat
  nextBookmarkId : Nat
deriving DecidableEq, Repr

/-- The store with no rows. -/
def emptyStore : Store :=
  { posts := [], profiles := [], bookmarks := [], notificationRows := [],
    nextPostId := 1, nextBookmarkId := 1 }

/-- Modelled from the spec: the scoped-transaction helper `withTransaction`
(`src/server/db/shared.ts`) is not among the provided sources; §5 and the
design notes of the spec describe it as begin / run body / commit on
success / roll back on any thrown error.  In the embedding a transaction
body maps the store to either a new store with a result or an error, and
rollback returns the untouched original store. -/
def withTransaction {α : Type} (s : Store)
    (body : Store → Except String (Store × α)) : Store × Except String α :=
  match body s with
  | .ok (s2, a) => (s2, .ok a)
  | .error e => (s, .error e)

/-! ## Write operations (`src/server/db/posts.ts`) -/

/-- Argument record of `createPost`. -/
structure NewPostData where
  userId : Nat
  audioUrl : String
  audioKey : String
  duration : Nat
  tags : Option (List String)
  city : Option String
deriving Repr

/-- `createPost`: insert a new top-level post.  `tags` defaults to `[]` and
`city` to `"singapore"` via `||`; the remaining columns take their schema
defaults. -/
def createPost (s : Store) (now : Nat) (d : NewPostData) : Store × Post :=
  let p : Post :=
    { id := s.nextPostId, userId := d.userId, type := .POST, parentId := none,
      audioUrl := d.audioUrl, audioKey := d.audioKey, duration := d.duration,
      tags := d.tags.getD [], waveformUrl := none,
      responseCount := 0, bookmarkCount := 0,
      city := jsOrElseStr d.city "singapore", active := true,
      status := .AWAITING_PROCESSING, createdAt := now, updatedAt := now }
  ({ s with posts := s.posts ++ [p], nextPostId := s.nextPostId + 1 }, p)

/-- Argument record of `createResponse`. -/
structure NewResponseData where
  userId : Nat
  parentId : Nat
  audioUrl : String
  audioKey : String
  duration : Nat
  tags : Option (List String)
deriving Repr

/-- Transaction body of `createResponse`: load the parent (must exist and
be active), insert the response with the parent's `city`, increment the
parent's `responseCount`, and enqueue a notification when the responder is
not the parent's owner. -/
def createResponseBody (now : Nat) (d : NewResponseData) (s : Store) :
    Except String (Store × Post) :=
  match s.posts.find? (fun p => p.id == d.parentId && p.active) with
  | none => .error "Parent post not found"
  | some parent =>
    let resp : Post :=
      { id := s.nextPostId, userId := d.userId, type := .RESPONSE,
        parentId := some d.parentId, audioUrl := d.audioUrl,
        audioKey := d.audioKey, duration := d.duration,
        tags := d.tags.getD [], waveformUrl := none,
        responseCount := 0, bookmarkCount := 0, city := parent.city,
        active := true, status := .AWAITING_PROCESSING,
        createdAt := now, updatedAt := now }
    let s1 : Store :=
      { s with posts := s.posts ++ [resp], nextPostId := s.nextPostId + 1 }
    let s2 : Store :=
      { s1 with posts := s1.posts.map (fun p =>
          if p.id == d.parentId then
            { p with responseCount := p.responseCount + 1, updatedAt := now }
          else p) }
    let s3 : Store :=
      if parent.userId != d.userId then
        { s2 with notificationRows := s2.notificationRows ++
            [{ userId := parent.userId,
               data := { type := "RESPONSE", postId := d.parentId,
                         responseId := resp.id, responderId := d.userId } }] }
      else s2
    .ok (s3, resp)

/-- `createResponse`: the four-step response transaction, run atomically. -/
def createResponse (s : Store) (now : Nat) (d : NewResponseData) :
    Store × Except String Post :=
  withTransaction s (createResponseBody now d)

/-- Transaction body of `deletePost`: find the active post (else report
`false`), require ownership, soft-delete, and clamp-decrement the parent's
`responseCount` when the post is a response. -/
def deletePostBody (now : Nat) (postId userId : Nat) (s : Store) :
    Except String (Store × Bool) :=
  match s.posts.find? (fun p => p.id == postId && p.active) with
  | none => .ok (s, false)
  | some post =>
    if post.userId != userId then .error "Not authorized to delete this post"
    else
      let s1 : Store :=
        { s with posts := s.posts.map (fun p =>
            if p.id == postId then
              { p with active := false, updatedAt := now }
            else p) }
      let s2 : Store :=
        if jsTruthyNat post.parentId then
          { s1 with posts := s1.posts.map (fun p =>
              if post.parentId == some p.id then
                { p with
                  responseCount := max (p.responseCount - 1) 0
                  updatedAt := now }
              else p) }
        else s1
      .ok (s2, true)

/-- `deletePost`: soft delete with parent-counter adjustment, run
atomically; returns `false` when no active post with that id exists. -/
def deletePost (s : Store) (now : Nat) (postId userId : Nat) :
    Store × Except String Bool :=
  withTransaction s (deletePostBody now postId userId)

/-- `updatePostWaveformUrl`: single-field update by the background worker. -/
def updatePostWaveformUrl (s : Store) (now : Nat) (postId : Nat)
    (url : String) : Store :=
  { s with posts := s.posts.map (fun p =>
      if p.id == postId then
        { p with waveformUrl := some url, updatedAt := now }
      else p) }

/-- `updatePostStatus`: single-field update by the background worker. -/
def updatePostStatus (s : Store) (now : Nat) (postId : Nat)
    (status : PostStatus) : Store :=
  { s with posts := s.posts.map (fun p =>
      if p.id == postId then { p with status := status, updatedAt := now }
      else p) }

/-- Modelled from the spec: the bookmark module (`src/server/db/bookmarks.ts`)
is not among the provided sources (only its callers and tests are).  §4.6:
`bookmark(userId, postId)` inserts a Bookmark row, failing with Conflict
when the `(userId, postId)` pair already exists (store-enforced uniqueness
constraint), and on success increments the post's `bookmarkCount`. -/
def addBookmark (s : Store) (now : Nat) (userId postId : Nat) :
    Store × Except String Unit :=
  if s.bookmarks.any (fun b => b.userId == userId && b.postId == postId) then
    (s, .error "Conflict")
  else
    let s1 : Store :=
      { s with
        bookmarks := s.bookmarks ++
          [{ id := s.nextBookmarkId, userId := userId, postId := postId,
             createdAt := now }],
        nextBookmarkId := s.nextBookmarkId + 1 }
    ({ s1 with posts := s1.posts.map (fun p =>
        if p.id == postId then
          { p with bookmarkCount := p.bookmarkCount + 1, updatedAt := now }
        else p) }, .ok ())

/-- Modelled from the spec: the bookmark module (`src/server/db/bookmarks.ts`)
is not among the provided sources.  §4.6: `removeBookmark(userId, postId)`
deletes the matching row if present and decrements `bookmarkCount`
(clamped at zero per §3), reporting NotFound when no such bookmark
exists. -/
def removeBookmark (s : Store) (now : Nat) (userId postId : Nat) :
    Store × Except String Unit :=
  if s.bookmarks.any (fun b => b.userId == userId && b.postId == postId) then
    let s1 : Store :=
      { s with bookmarks := s.bookmarks.filter (fun b =>
          !(b.userId == userId && b.postId == postId)) }
    ({ s1 with posts := s1.posts.map (fun p =>
        if p.id == postId then
          { p with
            bookmarkCount := max (p.bookmarkCount - 1) 0
            updatedAt := now }
        else p) }, .ok ())
  else (s, .error "NotFound")

/-! ## Read operations (`src/server/db/posts.ts`) -/

/-- The author projection joined from `user_profiles`. -/
structure Author where
  id : Nat
  userId : Nat
  username : String
  city : String
deriving DecidableEq, Repr

/-- `PostWithAuthor`: a post spread together with its author and the
viewer's bookmark flag. -/
structure PostWithAuthor extends Post where
  author : Author
  isBookmarked : Bool
deriving DecidableEq, Repr

/-- A row of the `posts ⋈ user_profiles` inner join. -/
structure JoinedRow where
  post : Post
  author : Author
deriving DecidableEq, Repr

/-- The inner join of `posts` with `user_profiles` on `userId`. -/
def joinRows (s : Store) : List JoinedRow :=
  s.posts.filterMap (fun p =>
    (s.profiles.find? (fun u => u.userId == p.userId)).map (fun u =>
      { post := p,
        author := { id := u.id, userId := u.userId, username := u.username,
                    city := u.city } }))

/-- `getPostById`: the joined row for an active post, with the viewer's
bookmark looked up only when a (truthy) viewer id is supplied. -/
def getPostById (s : Store) (id : Nat) (viewerUserId : Option Nat) :
    Option PostWithAuthor :=
  match (joinRows s).find? (fun r => r.post.id == id && r.post.active) with
  | none => none
  | some r =>
    let isBookmarked :=
      if jsTruthyNat viewerUserId then
        s.bookmarks.any (fun b =>
          b.userId == viewerUserId.getD 0 && b.postId == id)
      else false
    some { toPost := r.post, author := r.author, isBookmarked := isBookmarked }

/-- The `SortBy` union type. -/
inductive SortBy where
  | NEWEST
  | OLDEST
  | MOST_SAVED
  | LEAST_SAVED
  | MOST_RESPONSES
  | LEAST_RESPONSES
deriving DecidableEq, Repr

/-- The two sort orders whose cursor carries an ISO timestamp. -/
def SortBy.timeBased : SortBy → Bool
  | .NEWEST | .OLDEST => true
  | _ => false

/-- The three descending orders (cursor predicate `<`, `desc` ordering);
the other three are ascending (`>`, `asc`). -/
def SortBy.descending : SortBy → Bool
  | .NEWEST | .MOST_SAVED | .MOST_RESPONSES => true
  | _ => false

/-- The primary sort key of each order. -/
def sortKey (sb : SortBy) (p : Post) : Int :=
  match sb with
  | .NEWEST | .OLDEST => (p.createdAt : Int)
  | .MOST_SAVED | .LEAST_SAVED => p.bookmarkCount
  | .MOST_RESPONSES | .LEAST_RESPONSES => p.responseCount

/-- The compound `(key, id)` keyset of a post under a sort order. -/
def keyPair (sb : SortBy) (p : Post) : Int × Int :=
  (sortKey sb p, (p.id : Int))

/-- SQL row comparison `(a1, a2) < (b1, b2)`: strict lexicographic. -/
def pairLtB (a b : Int × Int) : Bool :=
  decide (a.1 < b.1) || (a.1 == b.1 && decide (a.2 < b.2))

/-- Non-strict lexicographic comparison of `(key, id)` pairs. -/
def pairLeB (a b : Int × Int) : Bool :=
  decide (a.1 < b.1) || (a.1 == b.1 && decide (a.2 ≤ b.2))

/-- `GetPostsOptions`. -/
structure GetPostsOptions where
  city : Option String := none
  tags : Option (List String) := none
  type : Option PostType := none
  userId : Option Nat := none
  parentId : Option Nat := none
  sortBy : Option SortBy := none
  cursor : Option String := none
  limit : Option Nat := none
  viewerUserId : Option Nat := none
deriving Repr

/-- The conjunction of the statically appended `where` conditions of
`getPosts`: `active = true`, the `type` filter (always appended, with the
destructuring default `POST`), and the `city` / `userId` / `parentId` /
`tags` filters, each appended only when its option is truthy. -/
def matchesFilters (o : GetPostsOptions) (p : Post) : Bool :=
  p.active &&
  p.type == o.type.getD .POST &&
  (match o.city with
   | some c => if c == "" then true else p.city == c
   | none => true) &&
  (match o.userId with
   | some u => if u == 0 then true else p.userId == u
   | none => true) &&
  (match o.parentId with
   | some pid => if pid == 0 then true else p.parentId == some pid
   | none => true) &&
  (match o.tags with
   | some ts => if ts.isEmpty then true else p.tags.any (fun t => ts.contains t)
   | none => true)

/-- Decode a cursor string the way `getPosts` does: `cursor.split(":")`
destructured into its first two components; when either component is empty
or missing the cursor contributes nothing (first page); otherwise the
primary value is parsed with `new Date` (time orders) or `parseInt`
(count orders) and the id with `parseInt`, and an unparsable component
yields an invalid query parameter that makes the query itself fail. -/
def cursorParams (sb : SortBy) (cursor : Option String) :
    Except String (Option (Int × Int)) :=
  match cursor with
  | none => .ok none
  | some cur =>
    let parts := jsSplit cur ':'
    let cursorValue := parts.headD ""
    let cursorId := (parts.drop 1).headD ""
    if cursorValue != "" && cursorId != "" then
      let v : Option Int :=
        if sb.timeBased then jsDateParse cursorValue
        else jsParseInt cursorValue
      match v, jsParseInt cursorId with
      | some vv, some ii => .ok (some (vv, ii))
      | _, _ => .error "invalid cursor parameter"
    else .ok none

/-- The keyset predicate appended for a decoded cursor: rows strictly
beyond the cursor pair in the active order. -/
def cursorCond (sb : SortBy) (cp : Option (Int × Int)) (p : Post) : Bool :=
  match cp with
  | none => true
  | some c =>
    if sb.descending then pairLtB (keyPair sb p) c
    else pairLtB c (keyPair sb p)

/-- The `orderBy` comparison of `getPosts` as a Boolean total order on
joined rows: primary key then id, both in the direction of the sort. -/
def rowLeB (sb : SortBy) (a b : JoinedRow) : Bool :=
  if sb.descending then pairLeB (keyPair sb b.post) (keyPair sb a.post)
  else pairLeB (keyPair sb a.post) (keyPair sb b.post)

/-- `rowLeB` as a decidable relation, for sorting. -/
def rowRel (sb : SortBy) (a b : JoinedRow) : Prop :=
  rowLeB sb a b = true

instance (sb : SortBy) : DecidableRel (rowRel sb) :=
  fun a b => decEq (rowLeB sb a b) true

/-- The ordered result set of `getPosts` before the limit is applied. -/
def sortRows (sb : SortBy) (l : List JoinedRow) : List JoinedRow :=
  l.insertionSort (rowRel sb)

/-- Serialization of `nextCursor` from the last returned row: ISO
timestamp for time orders, decimal count otherwise, then `":"` and the id. -/
def encodeCursor (sb : SortBy) (p : Post) : String :=
  match sb with
  | .NEWEST | .OLDEST => toISOString p.createdAt ++ ":" ++ toString p.id
  | .MOST_SAVED | .LEAST_SAVED =>
    toString p.bookmarkCount ++ ":" ++ toString p.id
  | .MOST_RESPONSES | .LEAST_RESPONSES =>
    toString p.responseCount ++ ":" ++ toString p.id

/-- The result record of `getPosts`. -/
structure GetPostsResult where
  posts : List PostWithAuthor
  hasMore : Bool
  nextCursor : Option String
deriving DecidableEq, Repr

/-- The rows fetched by the `getPosts` query: filtered, cursor-restricted,
ordered, and truncated to `limit + 1`. -/
def fetchRows (s : Store) (o : GetPostsOptions) (cp : Option (Int × Int)) :
    List JoinedRow :=
  let sb := o.sortBy.getD .NEWEST
  (sortRows sb ((joinRows s).filter (fun r =>
    matchesFilters o r.post && cursorCond sb cp r.post))).take
    (o.limit.getD 20 + 1)

/-- The viewer's bookmarked ids among a page, looked up in one batch only
when a truthy viewer id is supplied and the page is non-empty. -/
def bookmarkOverlay (s : Store) (viewerUserId : Option Nat)
    (postsData : List JoinedRow) : List Nat :=
  if jsTruthyNat viewerUserId && !postsData.isEmpty then
    (s.bookmarks.filter (fun b =>
      b.userId == viewerUserId.getD 0 &&
      postsData.any (fun r => r.post.id == b.postId))).map (fun b => b.postId)
  else []

/-- `getPosts`: filtering, sorting and keyset pagination over the store.
An unparsable (but non-empty) cursor component surfaces as a failed query,
matching the thrown serialization/SQL error of the source. -/
def getPosts (s : Store) (o : GetPostsOptions) :
    Except String GetPostsResult :=
  let sb := o.sortBy.getD .NEWEST
  let limit := o.limit.getD 20
  match cursorParams sb o.cursor with
  | .error e => .error e
  | .ok cp =>
    let results := fetchRows s o cp
    let hasMore := decide (limit < results.length)
    let postsData := results.take limit
    let bookmarkedPostIds := bookmarkOverlay s o.viewerUserId postsData
    let page := postsData.map (fun r =>
      { toPost := r.post, author := r.author,
        isBookmarked := bookmarkedPostIds.contains r.post.id })
    let nextCursor :=
      if hasMore then postsData.getLast?.map (fun r => encodeCursor sb r.post)
      else none
    .ok { posts := page, hasMore := hasMore, nextCursor := nextCursor }

/-! ## GraphQL projections and resolver error mapping -/

/-- The author object embedded in a `PostSummary` projection. -/
structure AuthorView where
  id : Nat
  userId : Nat
  username : String
  ageRange : Option String
  occupation : Option String
  city : String
  createdAt : Nat
deriving DecidableEq, Repr

/-- The `PostSummary` GraphQL projection; by shape it carries no
`audioUrl` field at all. -/
structure PostSummary where
  id : Nat
  userId : Nat
  author : AuthorView
  type : PostType
  status : PostStatus
  parentId : Option Nat
  duration : Nat
  tags : List String
  waveformUrl : Option String
  responseCount : Int
  bookmarkCount : Int
  isBookmarked : Bool
  createdAt : Nat
deriving DecidableEq, Repr

/-- The full `Post` GraphQL projection: a summary plus `audioUrl` and
`city`. -/
structure PostFull extends PostSummary where
  audioUrl : Option String
  city : String
deriving DecidableEq, Repr

/-- `mapPostToSummary` from the resolvers: the list-row projection, with
`waveformUrl` forced to null when `status = DELETED`. -/
def mapPostToSummary (p : PostWithAuthor) : PostSummary :=
  let isDeleted := p.status == PostStatus.DELETED
  { id := p.id, userId := p.userId,
    author := { id := p.author.id, userId := p.author.userId,
                username := p.author.username, ageRange := none,
                occupation := none, city := p.author.city,
                createdAt := p.createdAt },
    type := p.type, status := p.status,
    parentId := jsOrNullNat p.parentId,
    duration := p.duration, tags := p.tags,
    waveformUrl := if isDeleted then none else jsOrNullStr p.waveformUrl,
    responseCount := p.responseCount, bookmarkCount := p.bookmarkCount,
    isBookmarked := p.isBookmarked, createdAt := p.createdAt }

/-- `mapPostToFull` from the resolvers: the summary plus `audioUrl`
(forced to null when `status = DELETED`) and `city`. -/
def mapPostToFull (p : PostWithAuthor) : PostFull :=
  let isDeleted := p.status == PostStatus.DELETED
  { toPostSummary := mapPostToSummary p,
    audioUrl := if isDeleted then none else some p.audioUrl,
    city := p.city }

/-- The `deletePost` resolver: a `false` result from the database layer is
reported as a NotFound GraphQL error ("Post not found"); other errors
propagate. -/
def resolverDeletePost (s : Store) (now : Nat) (id userId : Nat) :
    Store × Except String Unit :=
  match deletePost s now id userId with
  | (s2, .ok true) => (s2, .ok ())
  | (s2, .ok false) => (s2, .error "Post not found")
  | (s2, .error e) => (s2, .error e)

/-! ## Concrete fixtures -/

/-- A user profile used by the concrete evaluations. -/
def aliceProfile : UserProfile :=
  { id := 1, userId := 1, username := "alice", city := "singapore" }

/-- A processed, active top-level post with the given id, timestamp and
bookmark count. -/
def samplePost (i t : Nat) (bc : Int) : Post :=
  { id := i, userId := 1, type := .POST, parentId := none, audioUrl := "a",
    audioKey := "k", duration := 30, tags := [], waveformUrl := none,
    responseCount := 0, bookmarkCount := bc, city := "singapore",
    active := true, status := .PROCESSED, createdAt := t, updatedAt := t }

/-- Three active posts by one author, created at 1s, 2s and 3s after the
epoch. -/
def storeA : Store :=
  { emptyStore with
    posts := [samplePost 1 1000 0, samplePost 2 2000 0, samplePost 3 3000 0],
    profiles := [aliceProfile], nextPostId := 4 }

/-- A store with one active post and one profile. -/
def storeOne : Store :=
  { emptyStore with
    posts := [samplePost 1 1000 0],
    profiles := [aliceProfile], nextPostId := 2 }

/-- The single joined row of `storeOne` as a page entry. -/
def rowOne : PostWithAuthor :=
  { toPost := samplePost 1 1000 0,
    author := { id := 1, userId := 1, username := "alice", city := "singapore" },
    isBookmarked := false }

/-- The page `getPosts storeOne {}` returns. -/
def resOne : GetPostsResult :=
  { posts := [rowOne], hasMore := false, nextCursor := none }

/-! ## C1 -/

/-- C1: the claim fails on the code for the time-based sort orders.  With
three active posts and `limit = 1` under `NEWEST`, the first page returns
the newest post together with `nextCursor = "<ISO timestamp>:<id>"`; but
passing that cursor back makes `getPosts` fail instead of returning the
next page, because `cursor.split(":")` destructures into the text before
the first colon (`"1970-01-01T00"`, an invalid date, since the ISO
timestamp itself contains colons) and the text between the first two
colons (`"00"`, the minutes field, not the row id).  The traversal
therefore never reaches posts 2 and 1. -/
theorem c1_newest_cursor_roundtrip_fails :
    (getPosts storeA { sortBy := some .NEWEST, limit := some 1 }).map
        (fun r => (r.posts.map (fun x => x.id), r.hasMore, r.nextCursor)) =
      .ok ([3], true, some "1970-01-01T00:00:03.000Z:3") ∧
    getPosts storeA
        { sortBy := some .NEWEST, limit := some 1,
          cursor := some "1970-01-01T00:00:03.000Z:3" } =
      .error "invalid cursor parameter" := by
  constructor <;> rfl

/-! ## C2 -/

/-- C2 counterexample: a cursor whose halves are both present but
unparsable is not treated as an absent cursor: `getPosts` fails instead of
returning the first page (under the default `NEWEST` order,
`new Date("abc")` is an Invalid Date and `parseInt("def", 10)` is `NaN`,
and the query built from them throws). -/
theorem c2_unparsable_cursor_fails_not_first_page :
    getPosts storeA { cursor := some "abc:def" } =
      .error "invalid cursor parameter" ∧
    (getPosts storeA {}).isOk = true := by
  constructor <;> rfl

/-- C2 as amended: the cursor is treated as absent (first page) exactly
when one of its first two `":"`-separated components is missing or empty;
components that are present but unparsable make the call fail instead. -/
theorem c2_empty_cursor_component_is_first_page (s : Store)
    (o : GetPostsOptions) (c : String)
    (h : (jsSplit c ':').headD "" = "" ∨
      ((jsSplit c ':').drop 1).headD "" = "") :
    getPosts s { o with cursor := some c } =
      getPosts s { o with cursor := none } := by
  have hcp : cursorParams (o.sortBy.getD .NEWEST) (some c) = .ok none := by
    unfold cursorParams
    rcases h with h | h <;> simp_all
  unfold getPosts
  simp only [hcp]
  rfl

/-- C2 witness: the spec's own example `"garbage"` has no second
component, so it is treated as no cursor. -/
theorem c2_garbage_cursor_witness :
    getPosts storeA { cursor := some "garbage" } =
      getPosts storeA { cursor := none } :=
  c2_empty_cursor_component_is_first_page storeA {} "garbage"
    (Or.inr (by decide))

/-! ## C3 -/

/-- C3: for a post with `status = DELETED`, the full projection has
`audioUrl = null` and `waveformUrl = null`, the summary projection (which
by shape carries no `audioUrl` field at all) has `waveformUrl = null`, and
every other field — `status` itself included — passes through from the
stored post unchanged (for `parentId` under the store invariant that ids
are positive, since the projection maps `parentId || null`). -/
theorem c3_deleted_post_redaction (p : PostWithAuthor)
    (hs : p.status = PostStatus.DELETED) (hp : p.parentId ≠ some 0) :
    (mapPostToFull p).audioUrl = none ∧
    (mapPostToFull p).waveformUrl = none ∧
    (mapPostToSummary p).waveformUrl = none ∧
    (mapPostToSummary p).status = p.status ∧
    (mapPostToSummary p).id = p.id ∧
    (mapPostToSummary p).userId = p.userId ∧
    (mapPostToSummary p).type = p.type ∧
    (mapPostToSummary p).parentId = p.parentId ∧
    (mapPostToSummary p).duration = p.duration ∧
    (mapPostToSummary p).tags = p.tags ∧
    (mapPostToSummary p).responseCount = p.responseCount ∧
    (mapPostToSummary p).bookmarkCount = p.bookmarkCount ∧
    (mapPostToSummary p).isBookmarked = p.isBookmarked ∧
    (mapPostToSummary p).createdAt = p.createdAt ∧
    (mapPostToSummary p).author.username = p.author.username ∧
    (mapPostToSummary p).author.city = p.author.city ∧
    (mapPostToFull p).city = p.city := by
  have hid : jsOrNullNat p.parentId = p.parentId := by
    cases hpp : p.parentId with
    | none => rfl
    | some n =>
      cases n with
      | zero => exact absurd hpp hp
      | succ m => rfl
  unfold mapPostToFull mapPostToSummary
  simp [hs, hid]

/-- A deleted post row as seen by a projection, with media fields
populated in storage. -/
def deletedPWA : PostWithAuthor :=
  { toPost :=
      { samplePost 1 1000 0 with
        status := .DELETED
        waveformUrl := some "w"
        parentId := none },
    author := { id := 1, userId := 1, username := "alice", city := "singapore" },
    isBookmarked := false }

/-- C3 witness: the redaction theorem applied to a concrete deleted post. -/
theorem c3_deleted_post_redaction_witness :
    (mapPostToFull deletedPWA).audioUrl = none ∧
    (mapPostToFull deletedPWA).waveformUrl = none ∧
    (mapPostToSummary deletedPWA).waveformUrl = none ∧
    (mapPostToSummary deletedPWA).status = deletedPWA.status ∧
    (mapPostToSummary deletedPWA).id = deletedPWA.id ∧
    (mapPostToSummary deletedPWA).userId = deletedPWA.userId ∧
    (mapPostToSummary deletedPWA).type = deletedPWA.type ∧
    (mapPostToSummary deletedPWA).parentId = deletedPWA.parentId ∧
    (mapPostToSummary deletedPWA).duration = deletedPWA.duration ∧
    (mapPostToSummary deletedPWA).tags = deletedPWA.tags ∧
    (mapPostToSummary deletedPWA).responseCount = deletedPWA.responseCount ∧
    (mapPostToSummary deletedPWA).bookmarkCount = deletedPWA.bookmarkCount ∧
    (mapPostToSummary deletedPWA).isBookmarked = deletedPWA.isBookmarked ∧
    (mapPostToSummary deletedPWA).createdAt = deletedPWA.createdAt ∧
    (mapPostToSummary deletedPWA).author.username = deletedPWA.author.username ∧
    (mapPostToSummary deletedPWA).author.city = deletedPWA.author.city ∧
    (mapPostToFull deletedPWA).city = deletedPWA.city :=
  c3_deleted_post_redaction deletedPWA (by rfl) (by decide)

/-! ## C4 -/

/-- C4: when the parent id does not refer to an existing active post, the
whole `createResponse` transaction fails with the NotFound error and rolls
back: the returned store is the original one — no response row, no counter
mutation, no notification. -/
theorem c4_missing_parent_aborts (s : Store) (now : Nat)
    (d : NewResponseData)
    (h : ∀ p ∈ s.posts, p.id = d.parentId → p.active = false) :
    createResponse s now d = (s, .error "Parent post not found") := by
  have hf : s.posts.find? (fun p => p.id == d.parentId && p.active) = none := by
    rw [List.find?_eq_none]
    intro p hp
    simp only [Bool.and_eq_true, beq_iff_eq, not_and]
    intro hid
    simp [h p hp hid]
  unfold createResponse withTransaction createResponseBody
  rw [hf]

/-- A store whose only post (id 9) is inactive. -/
def storeB : Store :=
  { emptyStore with
    posts := [{ samplePost 9 1000 0 with active := false }],
    profiles := [aliceProfile], nextPostId := 10 }

/-- Response-creation arguments aimed at the inactive post 9. -/
def c4data : NewResponseData :=
  { userId := 2, parentId := 9, audioUrl := "a", audioKey := "k",
    duration := 10, tags := none }

/-- C4 witness: responding to an inactive parent fails and leaves the
store untouched. -/
theorem c4_missing_parent_aborts_witness :
    createResponse storeB 5000 c4data =
      (storeB, .error "Parent post not found") :=
  c4_missing_parent_aborts storeB 5000 c4data (by decide)

/-! ## C5 -/

/-- C5: a successful `createResponse` returns a row with
`type = RESPONSE`, `parentId` the given parent, and `city` copied from the
parent post (which the transaction loaded as an active post with that
id) — not from the responding user's profile. -/
theorem c5_response_inherits_parent_city (s s2 : Store) (now : Nat)
    (d : NewResponseData) (resp parent : Post)
    (hf : s.posts.find? (fun p => p.id == d.parentId && p.active) =
      some parent)
    (h : createResponse s now d = (s2, .ok resp)) :
    resp.type = PostType.RESPONSE ∧ resp.parentId = some d.parentId ∧
    resp.city = parent.city ∧ parent.id = d.parentId ∧
    parent.active = true := by
  have hpred := List.find?_some hf
  simp only [Bool.and_eq_true, beq_iff_eq] at hpred
  unfold createResponse withTransaction createResponseBody at h
  rw [hf] at h
  simp only [Prod.mk.injEq, Except.ok.injEq] at h
  obtain ⟨-, hresp⟩ := h
  subst hresp
  exact ⟨rfl, rfl, rfl, hpred.1, hpred.2⟩

/-- Response-creation arguments aimed at the active post 1 of `storeA`. -/
def c5data : NewResponseData :=
  { userId := 2, parentId := 1, audioUrl := "a2", audioKey := "k2",
    duration := 10, tags := none }

/-- The response row `createResponse storeA 5000 c5data` inserts. -/
def c5resp : Post :=
  { id := 4, userId := 2, type := .RESPONSE, parentId := some 1,
    audioUrl := "a2", audioKey := "k2", duration := 10, tags := [],
    waveformUrl := none, responseCount := 0, bookmarkCount := 0,
    city := "singapore", active := true, status := .AWAITING_PROCESSING,
    createdAt := 5000, updatedAt := 5000 }

/-- C5 witness: the concrete response to post 1 carries the parent's
city. -/
theorem c5_response_inherits_parent_city_witness :
    c5resp.type = PostType.RESPONSE ∧
    c5resp.parentId = some c5data.parentId ∧
    c5resp.city = (samplePost 1 1000 0).city ∧
    (samplePost 1 1000 0).id = c5data.parentId ∧
    (samplePost 1 1000 0).active = true :=
  c5_response_inherits_parent_city storeA
    (createResponse storeA 5000 c5data).1 5000 c5data c5resp
    (samplePost 1 1000 0) (by rfl) (by rfl)

/-! ## C6 -/

/-- The lexicographic comparison `pairLeB` is total. -/
theorem pairLeB_total (a b : Int × Int) :
    pairLeB a b = true ∨ pairLeB b a = true := by
  rcases a with ⟨a1, a2⟩
  rcases b with ⟨b1, b2⟩
  unfold pairLeB
  simp only [Bool.or_eq_true, Bool.and_eq_true, decide_eq_true_eq,
    beq_iff_eq]
  omega

/-- The lexicographic comparison `pairLeB` is transitive. -/
theorem pairLeB_trans {a b c : Int × Int} (h1 : pairLeB a b = true)
    (h2 : pairLeB b c = true) : pairLeB a c = true := by
  rcases a with ⟨a1, a2⟩
  rcases b with ⟨b1, b2⟩
  rcases c with ⟨c1, c2⟩
  unfold pairLeB at h1 h2 ⊢
  simp only [Bool.or_eq_true, Bool.and_eq_true, decide_eq_true_eq,
    beq_iff_eq] at h1 h2 ⊢
  omega

instance (sb : SortBy) : IsTotal JoinedRow (rowRel sb) where
  total a b := by
    unfold rowRel rowLeB
    by_cases hd : sb.descending = true
    · simp only [hd, if_true]
      exact pairLeB_total (keyPair sb b.post) (keyPair sb a.post)
    · simp only [hd, if_false]
      exact pairLeB_total (keyPair sb a.post) (keyPair sb b.post)

instance (sb : SortBy) : IsTrans JoinedRow (rowRel sb) where
  trans a b c h1 h2 := by
    unfold rowRel rowLeB at h1 h2 ⊢
    by_cases hd : sb.descending = true
    · simp only [hd, if_true] at h1 h2 ⊢
      exact pairLeB_trans h2 h1
    · simp only [hd, if_false] at h1 h2 ⊢
      exact pairLeB_trans h1 h2

/-- C6: for every call whose cursor decodes (to a pair or to no
restriction), the engine fetches at most `limit + 1` rows, ordered by the
active strategy's key with id tie-break and restricted to the filter
conjunction plus the compound keyset predicate strictly beyond the cursor;
`hasMore` holds iff more than `limit` rows were fetched; the returned page
is the first `limit` of them (with the bookmark overlay applied); and
`nextCursor` is derived from the last returned row's sort-key value and
id, emitted exactly when `hasMore` and the page is non-empty. -/
theorem c6_pagination_mechanism (s : Store) (o : GetPostsOptions)
    (cp : Option (Int × Int)) (res : GetPostsResult)
    (hcp : cursorParams (o.sortBy.getD .NEWEST) o.cursor = .ok cp)
    (h : getPosts s o = .ok res) :
    (fetchRows s o cp).length ≤ o.limit.getD 20 + 1 ∧
    List.Sorted (rowRel (o.sortBy.getD .NEWEST)) (fetchRows s o cp) ∧
    (∀ row ∈ fetchRows s o cp,
      matchesFilters o row.post = true ∧
      cursorCond (o.sortBy.getD .NEWEST) cp row.post = true) ∧
    res.hasMore = decide (o.limit.getD 20 < (fetchRows s o cp).length) ∧
    res.posts = ((fetchRows s o cp).take (o.limit.getD 20)).map (fun r =>
      { toPost := r.post, author := r.author,
        isBookmarked := (bookmarkOverlay s o.viewerUserId
          ((fetchRows s o cp).take (o.limit.getD 20))).contains
          r.post.id }) ∧
    res.nextCursor = (if res.hasMore = true then
      (((fetchRows s o cp).take (o.limit.getD 20)).getLast?).map
        (fun r => encodeCursor (o.sortBy.getD .NEWEST) r.post)
      else none) := by
  unfold getPosts at h
  simp only [] at h
  rw [hcp] at h
  simp only [Except.ok.injEq] at h
  subst h
  refine ⟨?_, ?_, ?_, rfl, rfl, rfl⟩
  · unfold fetchRows
    rw [List.length_take]
    exact min_le_left _ _
  · unfold fetchRows sortRows
    exact List.Pairwise.sublist (List.take_sublist _ _)
      (List.sorted_insertionSort _ _)
  · intro row hrow
    unfold fetchRows sortRows at hrow
    have h2 := List.mem_of_mem_take hrow
    have h3 := (List.mem_insertionSort _).1 h2
    have h4 := (List.mem_filter.mp h3).2
    exact ⟨(Bool.and_eq_true _ _).mp h4 |>.1,
      (Bool.and_eq_true _ _).mp h4 |>.2⟩

/-- C6 witness: the mechanism theorem applied to a concrete call on a
one-post store (no cursor, default sort and limit). -/
theorem c6_pagination_mechanism_witness :
    (fetchRows storeOne {} none).length ≤ 21 ∧
    List.Sorted (rowRel .NEWEST) (fetchRows storeOne {} none) ∧
    (∀ row ∈ fetchRows storeOne {} none,
      matchesFilters {} row.post = true ∧
      cursorCond .NEWEST none row.post = true) ∧
    resOne.hasMore = decide (20 < (fetchRows storeOne {} none).length) ∧
    resOne.posts = ((fetchRows storeOne {} none).take 20).map (fun r =>
      { toPost := r.post, author := r.author,
        isBookmarked := (bookmarkOverlay storeOne none
          ((fetchRows storeOne {} none).take 20)).contains r.post.id }) ∧
    resOne.nextCursor = (if resOne.hasMore = true then
      (((fetchRows storeOne {} none).take 20).getLast?).map
        (fun r => encodeCursor .NEWEST r.post)
      else none) :=
  c6_pagination_mechanism storeOne {} none resOne rfl (by rfl)

/-! ## C7 -/

/-- C7: deleting a post that is already inactive reports NotFound (the
database layer returns `false` and the resolver maps it to the "Post not
found" error) and changes nothing: the store — every `active` flag and
every parent `responseCount` included — is returned as it was. -/
theorem c7_delete_inactive_notfound (s : Store) (now postId userId : Nat)
    (hex : ∃ p ∈ s.posts, p.id = postId)
    (h : ∀ p ∈ s.posts, p.id = postId → p.active = false) :
    deletePost s now postId userId = (s, .ok false) ∧
    resolverDeletePost s now postId userId =
      (s, .error "Post not found") := by
  have hf : s.posts.find? (fun p => p.id == postId && p.active) = none := by
    rw [List.find?_eq_none]
    intro p hp
    simp only [Bool.and_eq_true, beq_iff_eq, not_and]
    intro hid
    simp [h p hp hid]
  unfold resolverDeletePost deletePost withTransaction deletePostBody
  rw [hf]
  exact ⟨rfl, rfl⟩

/-- C7 witness: deleting the already-inactive post 9 of `storeB`. -/
theorem c7_delete_inactive_notfound_witness :
    deletePost storeB 6000 9 1 = (storeB, .ok false) ∧
    resolverDeletePost storeB 6000 9 1 =
      (storeB, .error "Post not found") :=
  c7_delete_inactive_notfound storeB 6000 9 1
    ⟨{ samplePost 9 1000 0 with active := false }, by decide⟩ (by decide)

/-! ## C8 -/

/-- Non-negativity of the two maintained counters of a post row. -/
def postOk (p : Post) : Prop :=
  0 ≤ p.responseCount ∧ 0 ≤ p.bookmarkCount

/-- One state transition of the core: each write operation of the data
layer (run to completion, with rollback on error), plus profile insertion
by the external profile collaborator. -/
inductive Step : Store → Store → Prop where
  | post {s : Store} (now : Nat) (d : NewPostData) :
      Step s (createPost s now d).1
  | response {s : Store} (now : Nat) (d : NewResponseData) :
      Step s (createResponse s now d).1
  | del {s : Store} (now postId userId : Nat) :
      Step s (deletePost s now postId userId).1
  | bookmarkAdd {s : Store} (now userId postId : Nat) :
      Step s (addBookmark s now userId postId).1
  | bookmarkRemove {s : Store} (now userId postId : Nat) :
      Step s (removeBookmark s now userId postId).1
  | waveform {s : Store} (now postId : Nat) (url : String) :
      Step s (updatePostWaveformUrl s now postId url)
  | status {s : Store} (now postId : Nat) (st : PostStatus) :
      Step s (updatePostStatus s now postId st)
  | profile {s : Store} (u : UserProfile) :
      Step s { s with profiles := s.profiles ++ [u] }

/-- The stores reachable from the empty store by the core's operations. -/
inductive Reachable : Store → Prop where
  | init : Reachable emptyStore
  | step {s s2 : Store} : Reachable s → Step s s2 → Reachable s2

/-- Mapping a counter-safe function over counter-safe rows is
counter-safe. -/
theorem postOk_map {l : List Post} {f : Post → Post}
    (hl : ∀ p ∈ l, postOk p) (hf : ∀ p, postOk p → postOk (f p)) :
    ∀ p ∈ l.map f, postOk p := by
  intro p hp
  rcases List.mem_map.mp hp with ⟨q, hq, rfl⟩
  exact hf q (hl q hq)

/-- Appending counter-safe rows preserves counter-safety. -/
theorem postOk_append {l1 l2 : List Post}
    (h1 : ∀ p ∈ l1, postOk p) (h2 : ∀ p ∈ l2, postOk p) :
    ∀ p ∈ l1 ++ l2, postOk p := by
  intro p hp
  rcases List.mem_append.mp hp with hp | hp
  · exact h1 p hp
  · exact h2 p hp

/-- An increment guarded by an id test keeps `responseCount` and
`bookmarkCount` non-negative, as does a decrement clamped at zero or an
update that leaves the counters alone. -/
theorem postOk_of_step_edit {p : Post} (q : Post) (hp : postOk p)
    (h : q.responseCount = p.responseCount ∨
      q.responseCount = p.responseCount + 1 ∨
      q.responseCount = max (p.responseCount - 1) 0)
    (hb : q.bookmarkCount = p.bookmarkCount ∨
      q.bookmarkCount = p.bookmarkCount + 1 ∨
      q.bookmarkCount = max (p.bookmarkCount - 1) 0) : postOk q := by
  obtain ⟨h1, h2⟩ := hp
  constructor
  · rcases h with h | h | h <;> rw [h] <;> [exact h1; omega;
      exact le_max_right _ _]
  · rcases hb with h | h | h <;> rw [h] <;> [exact h2; omega;
      exact le_max_right _ _]

/-- Every single operation preserves counter non-negativity. -/
theorem step_preserves_postOk {s s2 : Store} (hs : Step s s2)
    (h : ∀ p ∈ s.posts, postOk p) : ∀ p ∈ s2.posts, postOk p := by
  cases hs with
  | post now d =>
    unfold createPost
    apply postOk_append h
    intro p hp
    simp at hp
    subst hp
    exact ⟨le_refl 0, le_refl 0⟩
  | response now d =>
    unfold createResponse withTransaction createResponseBody
    cases hf : s.posts.find? (fun p => p.id == d.parentId && p.active) with
    | none => simpa using h
    | some parent =>
      simp only
      split
      all_goals
        apply postOk_map
        · apply postOk_append h
          intro p hp
          simp at hp
          subst hp
          exact ⟨le_refl 0, le_refl 0⟩
        · intro p hp
          split
          · exact postOk_of_step_edit _ hp (Or.inr (Or.inl rfl)) (Or.inl rfl)
          · exact hp
  | del now postId userId =>
    unfold deletePost withTransaction deletePostBody
    cases hf : s.posts.find? (fun p => p.id == postId && p.active) with
    | none => simpa using h
    | some post =>
      simp only
      by_cases hu : (post.userId != userId) = true
      · rw [if_pos hu]
        simpa using h
      · rw [if_neg hu]
        simp only
        by_cases hj : jsTruthyNat post.parentId = true
        · rw [if_pos hj]
          apply postOk_map
          · apply postOk_map h
            intro p hp
            split
            · exact postOk_of_step_edit _ hp (Or.inl rfl) (Or.inl rfl)
            · exact hp
          · intro p hp
            split
            · exact postOk_of_step_edit _ hp (Or.inr (Or.inr rfl))
                (Or.inl rfl)
            · exact hp
        · rw [if_neg hj]
          apply postOk_map h
          intro p hp
          split
          · exact postOk_of_step_edit _ hp (Or.inl rfl) (Or.inl rfl)
          · exact hp
  | bookmarkAdd now userId postId =>
    unfold addBookmark
    split
    · exact h
    · apply postOk_map h
      intro p hp
      split
      · exact postOk_of_step_edit _ hp (Or.inl rfl) (Or.inr (Or.inl rfl))
      · exact hp
  | bookmarkRemove now userId postId =>
    unfold removeBookmark
    split
    · apply postOk_map h
      intro p hp
      split
      · exact postOk_of_step_edit _ hp (Or.inl rfl) (Or.inr (Or.inr rfl))
      · exact hp
    · exact h
  | waveform now postId url =>
    unfold updatePostWaveformUrl
    apply postOk_map h
    intro p hp
    split
    · exact postOk_of_step_edit _ hp (Or.inl rfl) (Or.inl rfl)
    · exact hp
  | status now postId st =>
    unfold updatePostStatus
    apply postOk_map h
    intro p hp
    split
    · exact postOk_of_step_edit _ hp (Or.inl rfl) (Or.inl rfl)
    · exact hp
  | profile u => exact h

/-- C8: in every store reachable by the core's operations, every post's
`responseCount` and `bookmarkCount` are non-negative: increments start
from the schema default `0` and every decrement is clamped at zero
(`GREATEST(x - 1, 0)`). -/
theorem c8_counters_nonneg (s : Store) (h : Reachable s) :
    ∀ p ∈ s.posts, 0 ≤ p.responseCount ∧ 0 ≤ p.bookmarkCount := by
  induction h with
  | init => intro p hp; cases hp
  | step _ hs ih => exact step_preserves_postOk hs ih

/-- Creation data for the C8 witness post. -/
def c8postData : NewPostData :=
  { userId := 1, audioUrl := "a", audioKey := "k", duration := 30,
    tags := none, city := none }

/-- A one-step reachable store holding one post. -/
def c8store : Store := (createPost emptyStore 1000 c8postData).1

/-- The post `c8store` holds. -/
def c8post : Post := (createPost emptyStore 1000 c8postData).2

/-- C8 witness: the counters of a concrete reachable post are
non-negative. -/
theorem c8_counters_nonneg_witness :
    0 ≤ c8post.responseCount ∧ 0 ≤ c8post.bookmarkCount :=
  c8_counters_nonneg c8store
    (Reachable.step Reachable.init (Step.post 1000 c8postData)) c8post
    (by decide)

/-! ## C9 -/

/-- C9: when no `type` filter is supplied, the destructuring default
`POST` applies and (the enum value being always truthy) the type condition
is always appended, so every row of every returned page has
`type = POST`. -/
theorem c9_default_type_is_post (s : Store) (o : GetPostsOptions)
    (res : GetPostsResult) (x : PostWithAuthor)
    (ht : o.type = none) (h : getPosts s o = .ok res)
    (hx : x ∈ res.posts) : x.type = PostType.POST := by
  unfold getPosts at h
  simp only [] at h
  cases hcp : cursorParams (o.sortBy.getD .NEWEST) o.cursor with
  | error e => rw [hcp] at h; cases h
  | ok cp =>
    rw [hcp] at h
    simp only [Except.ok.injEq] at h
    subst h
    simp only [List.mem_map] at hx
    obtain ⟨row, hrow, hxe⟩ := hx
    have h1 : row ∈ fetchRows s o cp := List.mem_of_mem_take hrow
    unfold fetchRows sortRows at h1
    have h2 := List.mem_of_mem_take h1
    have h3 := (List.mem_insertionSort _).1 h2
    have h4 := (List.mem_filter.mp h3).2
    simp only [Bool.and_eq_true] at h4
    have hmf := h4.1
    unfold matchesFilters at hmf
    rw [ht] at hmf
    simp only [Bool.and_eq_true, beq_iff_eq] at hmf
    subst hxe
    exact hmf.1.1.1.1.2

/-- C9 witness: the row returned without a `type` filter is a `POST`. -/
theorem c9_default_type_is_post_witness : rowOne.type = PostType.POST :=
  c9_default_type_is_post storeOne {} resOne rowOne rfl (by rfl) (by decide)

/-! ## C10 -/

/-- C10: with no viewer id, both `getPostById` and `getPosts` skip the
bookmark lookup, and every returned projection carries
`isBookmarked = false` — however many Bookmark rows reference the post. -/
theorem c10_no_viewer_not_bookmarked (s : Store) (pid : Nat)
    (o : GetPostsOptions) (r : PostWithAuthor) (res : GetPostsResult)
    (x : PostWithAuthor) (hv : o.viewerUserId = none)
    (h1 : getPostById s pid none = some r)
    (h2 : getPosts s o = .ok res) (hx : x ∈ res.posts) :
    r.isBookmarked = false ∧ x.isBookmarked = false := by
  constructor
  · unfold getPostById at h1
    cases hf : (joinRows s).find?
        (fun q => q.post.id == pid && q.post.active) with
    | none => rw [hf] at h1; cases h1
    | some row =>
      rw [hf] at h1
      simp only [jsTruthyNat, Bool.false_eq_true, if_false,
        Option.some.injEq] at h1
      subst h1
      rfl
  · unfold getPosts at h2
    simp only [] at h2
    cases hcp : cursorParams (o.sortBy.getD .NEWEST) o.cursor with
    | error e => rw [hcp] at h2; cases h2
    | ok cp =>
      rw [hcp] at h2
      simp only [Except.ok.injEq] at h2
      subst h2
      simp only [List.mem_map] at hx
      obtain ⟨row, hrow, hxe⟩ := hx
      subst hxe
      simp [bookmarkOverlay, hv, jsTruthyNat]

/-- `storeOne` with two bookmark rows on post 1 from other users. -/
def storeBk : Store :=
  { storeOne with
    bookmarks := [{ id := 1, userId := 2, postId := 1, createdAt := 1500 },
                  { id := 2, userId := 3, postId := 1, createdAt := 1600 }]
    nextBookmarkId := 3 }

/-- C10 witness: with bookmarks present but no viewer, both reads report
`isBookmarked = false`. -/
theorem c10_no_viewer_not_bookmarked_witness :
    rowOne.isBookmarked = false ∧ rowOne.isBookmarked = false :=
  c10_no_viewer_not_bookmarked storeBk 1 {} rowOne
    { posts := [rowOne], hasMore := false, nextCursor := none } rowOne
    rfl (by rfl) (by rfl) (by decide)

end Echo
